import Mathlib

/-!
Verification of the Lunari cycle-prediction core (`PeriodPredictionService`).

Calendar dates are embedded as integers counting whole days since an epoch:
the source parses `YYYY-MM-DD` strings to UTC-midnight timestamps and always
divides millisecond differences by 86 400 000, so logged dates are day-aligned
and their differences are exact whole days (the source's `Math.floor` /
`Math.abs` on such quotients act on integers).  JavaScript number arithmetic
on the recency weights is embedded in `ℚ` (`0.2` is `1/5`), and `Math.round`
is Mathlib's `round` — both are `⌊x + 1/2⌋`.  Locale rendering of result
dates (`toLocaleDateString`) is embedded as the day number itself.
-/

namespace Lunari

/-- `dates.sort((a, b) => new Date(b).getTime() - new Date(a).getTime())`:
the logged dates in descending calendar order (the source's in-place sort,
taken here by its value; `getAverageCycleLengthRun` models the mutation). -/
def sortDesc (dates : List ℤ) : List ℤ :=
  List.insertionSort (· ≥ ·) dates

/-- One step of the grouping `for` loop shared by `getAverageCycleLength`
and the stats screen's `loadStatistics`: `prev` is `sortedDates[i-1]`,
`currentPeriod` the episode being built, the list argument the remaining
`sortedDates[i..]`.  A date within 7 days (absolute value) of the previous
one extends the current episode, otherwise the episode is flushed and a new
one starts. -/
def groupAux (prev : ℤ) (currentPeriod : List ℤ) : List ℤ → List (List ℤ)
  | [] => [currentPeriod]
  | d :: rest =>
    if (d - prev).natAbs ≤ 7 then groupAux d (currentPeriod ++ [d]) rest
    else currentPeriod :: groupAux d [d] rest

/-- Group a descending-sorted date list into period episodes (`periods` in
the source; the trailing `periods.push(currentPeriod)` is `groupAux`'s base
case). -/
def groupEpisodes : List ℤ → List (List ℤ)
  | [] => []
  | d :: rest => groupAux d [d] rest

/-- `periods[i][periods[i].length - 1]`: an episode's start, i.e. its
earliest date (episode members are stored newest first). -/
def episodeStart (ep : List ℤ) : ℤ := ep.getLastD 0

/-- The weighted-average accumulation loop of `getAverageCycleLength`
(`for (let i = 1; i < Math.min(periods.length, 6); i++) { … }`): the final
`(weightedTotal, weightSum, cycles)` state. -/
def cycleStats (periods : List (List ℤ)) : ℚ × ℚ × ℕ :=
  (List.range' 1 (min periods.length 6 - 1)).foldl
    (fun acc i =>
      let currentPeriodStart := episodeStart (periods.getD (i - 1) [])
      let prevPeriodStart := episodeStart (periods.getD i [])
      let dayDiff : ℤ := currentPeriodStart - prevPeriodStart
      let weight : ℚ := max (1 - (acc.2.2 : ℚ) * (1 / 5)) (1 / 5)
      (acc.1 + (dayDiff : ℚ) * weight, acc.2.1 + weight, acc.2.2 + 1))
    (0, 0, 0)

/-- `PeriodPredictionService.getAverageCycleLength` (result value). -/
def getAverageCycleLength (dates : List ℤ) : ℤ :=
  if dates.length < 2 then 28
  else
    let sortedDates := sortDesc dates
    let periods := groupEpisodes sortedDates
    let s := cycleStats periods
    if 0 < s.2.2 then round (s.1 / s.2.1) else 28

/-- `getAverageCycleLength` together with its effect on the caller's array:
`dates.sort(...)` sorts the argument in place — but only on the path past
the early `dates.length < 2` return.  The second component is the array's
contents when the call returns. -/
def getAverageCycleLengthRun (dates : List ℤ) : ℤ × List ℤ :=
  if dates.length < 2 then (28, dates)
  else (getAverageCycleLength dates, sortDesc dates)

structure PredictionResult where
  days : ℤ
  date : ℤ
  cycleLength : ℤ
  deriving DecidableEq

/-- `PeriodPredictionService.getPrediction`, with the wall-clock read
`const today = new Date()` made an explicit `today` parameter (in fractional
days, since the clock is not day-aligned). -/
def getPrediction (startDate : ℤ) (allDates : List ℤ) (today : ℚ) : PredictionResult :=
  let cycleLength := getAverageCycleLength allDates
  let nextPeriod := startDate + cycleLength
  let daysUntil := ⌈(nextPeriod : ℚ) - today⌉
  { days := daysUntil, date := nextPeriod, cycleLength := cycleLength }

/-- `PeriodPredictionService.getCurrentCycleDay`; `currentDate` is rational
because when omitted it defaults to the wall clock (here explicit). -/
def getCurrentCycleDay (startDate : ℤ) (currentDate : ℚ) : ℤ :=
  ⌊currentDate - (startDate : ℚ)⌋ + 1

/-- `cycleLength || 28`: JavaScript `||` substitutes the default both when
the argument is omitted and when it equals `0` (falsy). -/
def defaultCycle : Option ℤ → ℤ
  | none => 28
  | some L => if L = 0 then 28 else L

/-- `PeriodPredictionService.getOvulationDay` (the result day number; the
source renders it with `toLocaleDateString`). -/
def getOvulationDay (startDate : ℤ) (cycleLength : Option ℤ) : ℤ :=
  let length := defaultCycle cycleLength
  let ovulationDayOffset := length - 14
  startDate + ovulationDayOffset

structure FertilityWindow where
  start : ℤ
  «end» : ℤ
  ovulationDay : ℤ
  deriving DecidableEq

/-- `PeriodPredictionService.getFertilityWindow` (the string round-trip
through `toLocaleDateString` / `new Date` is value-preserving on day
numbers). -/
def getFertilityWindow (startDate : ℤ) (cycleLength : Option ℤ) : FertilityWindow :=
  let cycle := defaultCycle cycleLength
  let ovulationDay := getOvulationDay startDate (some cycle)
  let startWindow := ovulationDay - 5
  { start := startWindow, «end» := ovulationDay, ovulationDay := ovulationDay }

/-- `PeriodPredictionService.getCyclePhase`. -/
def getCyclePhase (cycleDay : ℤ) : String :=
  if cycleDay ≤ 5 then "Menstrual"
  else if cycleDay ≤ 10 then "Follicular"
  else if cycleDay ≤ 14 then "Ovulatory"
  else if cycleDay ≤ 28 then "Luteal"
  else "Extended"

/-- `PeriodPredictionService.getPregnancyChance`. -/
def getPregnancyChance (cycleDay : ℤ) : String :=
  if 11 ≤ cycleDay ∧ cycleDay ≤ 17 then "High"
  else if (8 ≤ cycleDay ∧ cycleDay ≤ 10) ∨ (18 ≤ cycleDay ∧ cycleDay ≤ 20) then "Medium"
  else "Low"

/-! Spec-side formulation of the cycle-length estimate, following the
spec's words (§4.2): gaps between consecutive episode starts, newest first,
capped at the 5 most recent, weighted by `max(1 - k*0.2, 0.2)`. -/

/-- The spec's weight `w_k = max(1 - k*0.2, 0.2)` for 0-based gap index `k`. -/
def specWeight (k : ℕ) : ℚ := max (1 - (k : ℚ) * (1 / 5)) (1 / 5)

/-- Episode start dates, most recent episode first. -/
def episodeStarts (dates : List ℤ) : List ℤ :=
  (groupEpisodes (sortDesc dates)).map episodeStart

/-- The spec's `gap_k`: day difference between the start of the `k`-th most
recent episode and the start of the next-older one, at most 5 gaps. -/
def recentGaps (dates : List ℤ) : List ℤ :=
  (List.zipWith (· - ·) (episodeStarts dates) (episodeStarts dates).tail).take 5

/-- Spec-side estimate: `round(Σ gap_k·w_k / Σ w_k)`. -/
def specCycleLength (dates : List ℤ) : ℤ :=
  round ((List.zipWith (fun (g : ℤ) (k : ℕ) => (g : ℚ) * specWeight k) (recentGaps dates)
      (List.range (recentGaps dates).length)).sum /
    ((List.range (recentGaps dates).length).map specWeight).sum)

/-! ### Helper lemmas -/

theorem groupAux_flatten (rest : List ℤ) : ∀ (prev : ℤ) (cur : List ℤ),
    (groupAux prev cur rest).flatten = cur ++ rest := by
  induction rest with
  | nil => intro prev cur; simp [groupAux]
  | cons d rest ih =>
    intro prev cur
    by_cases h : (d - prev).natAbs ≤ 7
    · simp [groupAux, h, ih]
    · simp [groupAux, h, ih]

theorem groupEpisodes_flatten (l : List ℤ) : (groupEpisodes l).flatten = l := by
  cases l with
  | nil => rfl
  | cons d rest => simp [groupEpisodes, groupAux_flatten]

theorem sortDesc_sorted (l : List ℤ) : List.Sorted (· ≥ ·) (sortDesc l) :=
  List.sorted_insertionSort _ l

theorem sortDesc_idem (l : List ℤ) : sortDesc (sortDesc l) = sortDesc l :=
  (sortDesc_sorted l).insertionSort_eq

theorem groupAux_length_le (rest : List ℤ) : ∀ (prev : ℤ) (cur : List ℤ),
    (groupAux prev cur rest).length ≤ rest.length + 1 := by
  induction rest with
  | nil => intro _ _; simp [groupAux]
  | cons d rest ih =>
    intro prev cur
    by_cases h : (d - prev).natAbs ≤ 7
    · simp only [groupAux, if_pos h, List.length_cons]
      have := ih d (cur ++ [d])
      omega
    · simp only [groupAux, if_neg h, List.length_cons]
      have := ih d [d]
      omega

theorem groupEpisodes_length_le (l : List ℤ) :
    (groupEpisodes l).length ≤ l.length := by
  cases l with
  | nil => simp [groupEpisodes]
  | cons d rest =>
    have := groupAux_length_le rest d [d]
    simpa [groupEpisodes] using this

theorem sortDesc_length (l : List ℤ) : (sortDesc l).length = l.length :=
  List.length_insertionSort _ _

theorem getAverageCycleLength_of_ge_two (ds : List ℤ) (h : ¬ ds.length < 2) :
    getAverageCycleLength ds =
      if 0 < (cycleStats (groupEpisodes (sortDesc ds))).2.2
      then round ((cycleStats (groupEpisodes (sortDesc ds))).1 /
        (cycleStats (groupEpisodes (sortDesc ds))).2.1)
      else 28 := by
  rw [getAverageCycleLength, if_neg h]

theorem rangeOne : List.range 1 = [0] := rfl

theorem rangeTwo : List.range 2 = [0, 1] := rfl

theorem rangeThree : List.range 3 = [0, 1, 2] := rfl

theorem rangeFour : List.range 4 = [0, 1, 2, 3] := rfl

theorem rangeFive : List.range 5 = [0, 1, 2, 3, 4] := rfl

theorem cycleStats_two (p0 p1 : List ℤ) :
    cycleStats [p0, p1] =
      (0 + ((episodeStart p0 - episodeStart p1 : ℤ) : ℚ) * specWeight 0,
       0 + specWeight 0, 1) := rfl

theorem cycleStats_three (p0 p1 p2 : List ℤ) :
    cycleStats [p0, p1, p2] =
      (0 + ((episodeStart p0 - episodeStart p1 : ℤ) : ℚ) * specWeight 0
         + ((episodeStart p1 - episodeStart p2 : ℤ) : ℚ) * specWeight 1,
       0 + specWeight 0 + specWeight 1, 2) := rfl

theorem cycleStats_four (p0 p1 p2 p3 : List ℤ) :
    cycleStats [p0, p1, p2, p3] =
      (0 + ((episodeStart p0 - episodeStart p1 : ℤ) : ℚ) * specWeight 0
         + ((episodeStart p1 - episodeStart p2 : ℤ) : ℚ) * specWeight 1
         + ((episodeStart p2 - episodeStart p3 : ℤ) : ℚ) * specWeight 2,
       0 + specWeight 0 + specWeight 1 + specWeight 2, 3) := rfl

theorem cycleStats_five (p0 p1 p2 p3 p4 : List ℤ) :
    cycleStats [p0, p1, p2, p3, p4] =
      (0 + ((episodeStart p0 - episodeStart p1 : ℤ) : ℚ) * specWeight 0
         + ((episodeStart p1 - episodeStart p2 : ℤ) : ℚ) * specWeight 1
         + ((episodeStart p2 - episodeStart p3 : ℤ) : ℚ) * specWeight 2
         + ((episodeStart p3 - episodeStart p4 : ℤ) : ℚ) * specWeight 3,
       0 + specWeight 0 + specWeight 1 + specWeight 2 + specWeight 3, 4) := rfl

theorem cycleStats_six (p0 p1 p2 p3 p4 p5 : List ℤ) :
    cycleStats [p0, p1, p2, p3, p4, p5] =
      (0 + ((episodeStart p0 - episodeStart p1 : ℤ) : ℚ) * specWeight 0
         + ((episodeStart p1 - episodeStart p2 : ℤ) : ℚ) * specWeight 1
         + ((episodeStart p2 - episodeStart p3 : ℤ) : ℚ) * specWeight 2
         + ((episodeStart p3 - episodeStart p4 : ℤ) : ℚ) * specWeight 3
         + ((episodeStart p4 - episodeStart p5 : ℤ) : ℚ) * specWeight 4,
       0 + specWeight 0 + specWeight 1 + specWeight 2 + specWeight 3 + specWeight 4, 5) := rfl

theorem cycleStats_sixPlus (p0 p1 p2 p3 p4 p5 : List ℤ) (rest : List (List ℤ)) :
    cycleStats (p0 :: p1 :: p2 :: p3 :: p4 :: p5 :: rest) =
      cycleStats [p0, p1, p2, p3, p4, p5] := by
  unfold cycleStats
  rw [show min (p0 :: p1 :: p2 :: p3 :: p4 :: p5 :: rest).length 6 = 6 from
    min_eq_right (by simp only [List.length_cons]; omega)]
  rfl

/-! ### Claim theorems -/

/-- C7: episode grouping is idempotent — flattening the grouped episodes back
into a date list and grouping again (which sorts first, as the grouping
pipeline always does) yields the same episodes. -/
theorem groupEpisodes_idempotent (ds : List ℤ) :
    groupEpisodes (sortDesc ((groupEpisodes (sortDesc ds)).flatten)) =
      groupEpisodes (sortDesc ds) := by
  rw [groupEpisodes_flatten, sortDesc_idem]

/-- C3: for every positive cycle day, the phase classification realises
exactly the partition `≤5 ↦ Menstrual, 6–10 ↦ Follicular, 11–14 ↦ Ovulatory,
15–28 ↦ Luteal, >28 ↦ Extended`, and the pregnancy-chance classification —
an independent axis — realises `11–17 ↦ High, 8–10 ∨ 18–20 ↦ Medium,
otherwise ↦ Low`. -/
theorem phase_chance_classification (d : ℤ) (hd : 1 ≤ d) :
    (getCyclePhase d = "Menstrual" ↔ d ≤ 5) ∧
    (getCyclePhase d = "Follicular" ↔ 6 ≤ d ∧ d ≤ 10) ∧
    (getCyclePhase d = "Ovulatory" ↔ 11 ≤ d ∧ d ≤ 14) ∧
    (getCyclePhase d = "Luteal" ↔ 15 ≤ d ∧ d ≤ 28) ∧
    (getCyclePhase d = "Extended" ↔ 28 < d) ∧
    (getPregnancyChance d = "High" ↔ 11 ≤ d ∧ d ≤ 17) ∧
    (getPregnancyChance d = "Medium" ↔ (8 ≤ d ∧ d ≤ 10) ∨ (18 ≤ d ∧ d ≤ 20)) ∧
    (getPregnancyChance d = "Low" ↔
      ¬((11 ≤ d ∧ d ≤ 17) ∨ (8 ≤ d ∧ d ≤ 10) ∨ (18 ≤ d ∧ d ≤ 20))) := by
  unfold getCyclePhase getPregnancyChance
  split_ifs <;> simp_all <;> omega

/-- C3 witness: cycle day 12 is Ovulatory with High pregnancy chance. -/
theorem phase_chance_classification_witness :
    (1 : ℤ) ≤ 12 ∧ getCyclePhase 12 = "Ovulatory" ∧ getPregnancyChance 12 = "High" :=
  ⟨by decide,
   (phase_chance_classification 12 (by decide)).2.2.1.mpr (by decide),
   (phase_chance_classification 12 (by decide)).2.2.2.2.2.1.mpr (by decide)⟩

/-- C9: a non-positive cycle day (reference date on or before the day
preceding the episode start) is silently classified as Menstrual with Low
pregnancy chance — the classifiers are total and signal nothing. -/
theorem nonpositive_cycleDay_classification (d : ℤ) (hd : d ≤ 0) :
    getCyclePhase d = "Menstrual" ∧ getPregnancyChance d = "Low" := by
  unfold getCyclePhase getPregnancyChance
  split_ifs <;> first | exact ⟨rfl, rfl⟩ | omega

/-- C9 witness at cycle day 0. -/
theorem nonpositive_cycleDay_classification_witness :
    (0 : ℤ) ≤ 0 ∧ getCyclePhase 0 = "Menstrual" ∧ getPregnancyChance 0 = "Low" :=
  ⟨by decide, nonpositive_cycleDay_classification 0 (by decide)⟩

/-- C10: an explicit cycle length of 0 is treated like an omitted one
(`cycleLength || 28`): ovulation lands at `start + 14` (not `start − 14`)
and the fertility window coincides with the 28-day default. -/
theorem zero_cycleLength_defaults (s : ℤ) :
    getOvulationDay s (some 0) = getOvulationDay s none ∧
    getOvulationDay s (some 0) = s + 14 ∧
    getFertilityWindow s (some 0) = getFertilityWindow s none ∧
    getFertilityWindow s (some 0) = getFertilityWindow s (some 28) := by
  refine ⟨rfl, ?_, rfl, rfl⟩
  norm_num [getOvulationDay, defaultCycle]

/-- C5: the current cycle day is `⌊referenceDate − episodeStart⌋ + 1`, with
no clamping: the start day itself is day 1 (`2024-01-01` is day 19723 since
the Unix epoch, `2024-01-15` day 19737), and the result is non-positive
exactly when the reference date precedes the episode start. -/
theorem getCurrentCycleDay_spec (s c : ℤ) :
    getCurrentCycleDay s (c : ℚ) = c - s + 1 ∧
    getCurrentCycleDay s (s : ℚ) = 1 ∧
    getCurrentCycleDay 19723 ((19723 : ℤ) : ℚ) = 1 ∧
    getCurrentCycleDay 19723 ((19737 : ℤ) : ℚ) = 15 ∧
    (getCurrentCycleDay s (c : ℚ) ≤ 0 ↔ c < s) := by
  have key : ∀ a b : ℤ, getCurrentCycleDay a (b : ℚ) = b - a + 1 := by
    intro a b
    unfold getCurrentCycleDay
    rw [show (b : ℚ) - (a : ℚ) = ((b - a : ℤ) : ℚ) by push_cast; ring, Int.floor_intCast]
  refine ⟨key s c, by rw [key s s]; ring, by rw [key]; norm_num, by rw [key]; norm_num, ?_⟩
  rw [key s c]
  omega

/-- C4: the next-period forecast is the most recent episode start plus the
estimated cycle length; `days` is the ceiling of the day distance from the
reference time to the forecast, and it is negative exactly when the
reference time has passed the forecast day by a full day or more
(the period is overdue). -/
theorem getPrediction_spec (s : ℤ) (ds : List ℤ) (now : ℚ) :
    (getPrediction s ds now).date = s + getAverageCycleLength ds ∧
    (getPrediction s ds now).cycleLength = getAverageCycleLength ds ∧
    (getPrediction s ds now).days = ⌈((getPrediction s ds now).date : ℚ) - now⌉ ∧
    ((getPrediction s ds now).days < 0 ↔ ((getPrediction s ds now).date : ℚ) ≤ now - 1) := by
  refine ⟨rfl, rfl, rfl, ?_⟩
  have hdate : (getPrediction s ds now).date = s + getAverageCycleLength ds := rfl
  have hdays : (getPrediction s ds now).days =
      ⌈((s + getAverageCycleLength ds : ℤ) : ℚ) - now⌉ := rfl
  rw [hdays, hdate, show (0 : ℤ) = -1 + 1 by ring, Int.lt_add_one_iff, Int.ceil_le]
  push_cast
  constructor <;> intro h <;> linarith

/-- C6 counterexample: with an explicit cycle length of 0, the code returns
`start + 14`, not `start + (0 − 14)` — `cycleLength || 28` substitutes 28. -/
theorem getOvulationDay_zero_counterexample :
    ¬ (getOvulationDay 0 (some 0) = 0 + (0 - 14)) := by decide

/-- C6 (amended): for every nonzero cycle length `L` the ovulation day is
`start + (L − 14)`, and for every supplied cycle length (including the `0`
and omitted cases) the fertility window ends on the ovulation day and starts
5 days before it. -/
theorem ovulation_fertilityWindow_spec (s L : ℤ) :
    (L ≠ 0 → getOvulationDay s (some L) = s + (L - 14)) ∧
    (getFertilityWindow s (some L)).«end» = getOvulationDay s (some L) ∧
    (getFertilityWindow s (some L)).start = getOvulationDay s (some L) - 5 ∧
    (getFertilityWindow s none).«end» = getOvulationDay s none ∧
    (getFertilityWindow s none).start = getOvulationDay s none - 5 := by
  by_cases hL : L = 0 <;>
    simp [hL, getFertilityWindow, getOvulationDay, defaultCycle]

/-- C6 witness at `start = 0`, `L = 28`. -/
theorem ovulation_fertilityWindow_spec_witness :
    getOvulationDay 0 (some 28) = 0 + (28 - 14) ∧
    (getFertilityWindow 0 (some 28)).«end» = getOvulationDay 0 (some 28) :=
  ⟨(ovulation_fertilityWindow_spec 0 28).1 (by decide),
   (ovulation_fertilityWindow_spec 0 28).2.1⟩

/-- C8 counterexample: the caller's date list is not left unchanged — the
in-place `dates.sort(...)` reorders `[0, 10]` to `[10, 0]`. -/
theorem getAverageCycleLengthRun_mutates_counterexample :
    (getAverageCycleLengthRun [0, 10]).2 ≠ [0, 10] := by decide

/-- C8 (amended): the result is a deterministic function of the argument
(the wall-clock reads in `getPrediction` / `getCurrentCycleDay` are explicit
parameters in this model), but `getAverageCycleLength` sorts the caller's
array in place: the list after the call is a descending permutation of the
original, not necessarily the original order. -/
theorem getAverageCycleLengthRun_spec (ds : List ℤ) :
    (getAverageCycleLengthRun ds).1 = getAverageCycleLength ds ∧
    (getAverageCycleLengthRun ds).2.Perm ds ∧
    List.Sorted (· ≥ ·) (getAverageCycleLengthRun ds).2 := by
  unfold getAverageCycleLengthRun
  split_ifs with h
  · refine ⟨by rw [getAverageCycleLength, if_pos h], List.Perm.refl _, ?_⟩
    rcases ds with _ | ⟨a, _ | ⟨b, tl⟩⟩
    · exact List.sorted_nil
    · exact List.sorted_singleton a
    · simp only [List.length_cons] at h; omega
  · exact ⟨rfl, List.perm_insertionSort _ _, sortDesc_sorted ds⟩

/-- C2: the estimate defaults to 28 both when fewer than 2 dates are
supplied (the early return) and when the grouping yields fewer than 2
episodes, i.e. zero gaps (`cycles > 0` fails). -/
theorem getAverageCycleLength_default_28 (ds : List ℤ)
    (h : ds.length < 2 ∨ (groupEpisodes (sortDesc ds)).length < 2) :
    getAverageCycleLength ds = 28 := by
  by_cases h1 : ds.length < 2
  · rw [getAverageCycleLength, if_pos h1]
  · rw [getAverageCycleLength_of_ge_two ds h1]
    have hE : (groupEpisodes (sortDesc ds)).length < 2 := h.resolve_left h1
    rcases hP : groupEpisodes (sortDesc ds) with _ | ⟨p, _ | ⟨q, tl⟩⟩
    · exact if_neg (show ¬ (0 : ℕ) < (cycleStats ([] : List (List ℤ))).2.2 from lt_irrefl 0)
    · exact if_neg (show ¬ (0 : ℕ) < (cycleStats [p]).2.2 from lt_irrefl 0)
    · rw [hP] at hE
      simp only [List.length_cons] at hE
      exact absurd hE (by omega)

/-- C2 witness: the empty history. -/
theorem getAverageCycleLength_default_28_witness :
    (([] : List ℤ).length < 2 ∨ (groupEpisodes (sortDesc ([] : List ℤ))).length < 2) ∧
    getAverageCycleLength ([] : List ℤ) = 28 :=
  ⟨Or.inl (by decide), getAverageCycleLength_default_28 [] (Or.inl (by decide))⟩

/-- C1: whenever the history groups into at least 2 episodes, the estimate
is `round(Σ gap_k·w_k / Σ w_k)` over at most the 5 most recent inter-episode
gaps (newest first), with `w_k = max(1 − k·0.2, 0.2)`. -/
theorem getAverageCycleLength_eq_specCycleLength (ds : List ℤ)
    (h : 2 ≤ (groupEpisodes (sortDesc ds)).length) :
    getAverageCycleLength ds = specCycleLength ds := by
  have hlen : ¬ ds.length < 2 := by
    have h1 := groupEpisodes_length_le (sortDesc ds)
    have h2 := sortDesc_length ds
    omega
  rw [getAverageCycleLength_of_ge_two ds hlen]
  rcases hP : groupEpisodes (sortDesc ds) with _ | ⟨p0, _ | ⟨p1, P⟩⟩
  · rw [hP] at h; simp at h
  · rw [hP] at h; simp at h
  · rcases P with _ | ⟨p2, _ | ⟨p3, _ | ⟨p4, _ | ⟨p5, rest⟩⟩⟩⟩
    · have hg : recentGaps ds = [episodeStart p0 - episodeStart p1] := by
        unfold recentGaps episodeStarts
        rw [hP]
        rfl
      unfold specCycleLength
      rw [hg, cycleStats_two]
      split_ifs with hc
      · congr 1
        simp only [List.length_cons, List.length_nil]
        rw [rangeOne]
        simp only [List.zipWith_cons_cons, List.zipWith_nil_left, List.map_cons, List.map_nil,
          List.sum_cons, List.sum_nil]
        push_cast
        ring
      · exact absurd (Nat.succ_pos _) hc
    · have hg : recentGaps ds =
          [episodeStart p0 - episodeStart p1, episodeStart p1 - episodeStart p2] := by
        unfold recentGaps episodeStarts
        rw [hP]
        rfl
      unfold specCycleLength
      rw [hg, cycleStats_three]
      split_ifs with hc
      · congr 1
        simp only [List.length_cons, List.length_nil]
        rw [rangeTwo]
        simp only [List.zipWith_cons_cons, List.zipWith_nil_left, List.map_cons, List.map_nil,
          List.sum_cons, List.sum_nil]
        push_cast
        ring
      · exact absurd (Nat.succ_pos _) hc
    · have hg : recentGaps ds =
          [episodeStart p0 - episodeStart p1, episodeStart p1 - episodeStart p2,
           episodeStart p2 - episodeStart p3] := by
        unfold recentGaps episodeStarts
        rw [hP]
        rfl
      unfold specCycleLength
      rw [hg, cycleStats_four]
      split_ifs with hc
      · congr 1
        simp only [List.length_cons, List.length_nil]
        rw [rangeThree]
        simp only [List.zipWith_cons_cons, List.zipWith_nil_left, List.map_cons, List.map_nil,
          List.sum_cons, List.sum_nil]
        push_cast
        ring
      · exact absurd (Nat.succ_pos _) hc
    · have hg : recentGaps ds =
          [episodeStart p0 - episodeStart p1, episodeStart p1 - episodeStart p2,
           episodeStart p2 - episodeStart p3, episodeStart p3 - episodeStart p4] := by
        unfold recentGaps episodeStarts
        rw [hP]
        rfl
      unfold specCycleLength
      rw [hg, cycleStats_five]
      split_ifs with hc
      · congr 1
        simp only [List.length_cons, List.length_nil]
        rw [rangeFour]
        simp only [List.zipWith_cons_cons, List.zipWith_nil_left, List.map_cons, List.map_nil,
          List.sum_cons, List.sum_nil]
        push_cast
        ring
      · exact absurd (Nat.succ_pos _) hc
    · have hg : recentGaps ds =
          [episodeStart p0 - episodeStart p1, episodeStart p1 - episodeStart p2,
           episodeStart p2 - episodeStart p3, episodeStart p3 - episodeStart p4,
           episodeStart p4 - episodeStart p5] := by
        unfold recentGaps episodeStarts
        rw [hP]
        rfl
      unfold specCycleLength
      rw [hg, cycleStats_sixPlus, cycleStats_six]
      split_ifs with hc
      · congr 1
        simp only [List.length_cons, List.length_nil]
        rw [rangeFive]
        simp only [List.zipWith_cons_cons, List.zipWith_nil_left, List.map_cons, List.map_nil,
          List.sum_cons, List.sum_nil]
        push_cast
        ring
      · exact absurd (Nat.succ_pos _) hc

/-- C1 witness: two single-day episodes 28 days apart. -/
theorem getAverageCycleLength_eq_specCycleLength_witness :
    2 ≤ (groupEpisodes (sortDesc [(0 : ℤ), 28])).length ∧
    getAverageCycleLength [(0 : ℤ), 28] = specCycleLength [(0 : ℤ), 28] :=
  ⟨by decide, getAverageCycleLength_eq_specCycleLength _ (by decide)⟩

end Lunari
